import Mathlib

/-!
Shallow embedding of `src/python_server/flask_app.py`: a Flask handler
`generate_learning_path` plus the heuristic `calculate_match_percentage`.
Dict fields that may be absent are modelled with `Option`; a Python
exception is modelled with `Except String`, carrying `str(e)`.
-/

/-- A skill object from the request body: a JSON dict that may or may not
carry a `name` key. `s[...]` on an absent key raises `KeyError`. -/
structure Skill where
  name : Option String
deriving DecidableEq

/-- Reading `s` at key `name` (the subscript access in the Python source);
raises `KeyError` when the key is absent. -/
def Skill.getName (s : Skill) : Except String String :=
  match s.name with
  | some n => Except.ok n
  | none => Except.error "KeyError: \x27name\x27"

/-- Python `str.lower()` as used on the ASCII skill names. -/
def pyLower (s : String) : String := String.mk (s.data.map Char.toLower)

/-- Whether the first character list is an initial segment of the second. -/
def listStartsWith : List Char → List Char → Bool
  | [], _ => true
  | _ :: _, [] => false
  | a :: as, b :: bs => a == b && listStartsWith as bs

/-- Whether `n` occurs as a contiguous run somewhere inside the second list. -/
def subOccurs (n : List Char) : List Char → Bool
  | [] => listStartsWith n []
  | b :: t => listStartsWith n (b :: t) || subOccurs n t

/-- Python substring containment `needle in hay` on strings. -/
def pyIn (needle hay : String) : Bool := subOccurs needle.toList hay.toList

/-- The fixed `relevant_keywords` dict lookup with the `.get` fallback
`["git", "api"]` (flask_app.py lines 89-96). -/
def relevantKeywords (target_role : String) : List String :=
  if target_role = "Backend Developer" then
    ["node.js", "python", "sql", "api", "database", "git"]
  else if target_role = "Frontend Developer" then
    ["javascript", "react", "html", "css", "figma", "git"]
  else if target_role = "AI Engineer" then
    ["python", "machine learning", "pytorch", "tensorflow", "data analysis"]
  else if target_role = "UI/UX Designer" then
    ["figma", "design", "user research", "prototyping"]
  else
    ["git", "api"]

/-- The list comprehension on line 97 of the source: lower-cased names of the
user skills, left to right, propagating the first `KeyError`. -/
def user_skill_names : List Skill → Except String (List String)
  | [] => Except.ok []
  | s :: rest =>
    match s.getName with
    | Except.error e => Except.error e
    | Except.ok n =>
      match user_skill_names rest with
      | Except.error e => Except.error e
      | Except.ok ns => Except.ok (pyLower n :: ns)

/-- Line 99 of the source: the keywords that occur as a substring of some
lower-cased user skill name. -/
def matchedKeywords (keywords names : List String) : List String :=
  keywords.filter (fun k => names.any (fun us => pyIn k us))

/-- Line 100 of the source: `int((len(matches) / len(keywords)) * 100) if
keywords else 0`. Python `int` on a nonnegative float truncates, which on
these operands is floor division. -/
def rawPercentage (keywords names : List String) : Nat :=
  if keywords.isEmpty then 0
  else (matchedKeywords keywords names).length * 100 / keywords.length

/-- Line 101 of the source: `min(max(percentage, 10), 95)`. -/
def clampBand (p : Nat) : Nat := min (max p 10) 95

/-- `calculate_match_percentage` (flask_app.py lines 85-101). The skill
objects come from JSON, so the `name` access can raise. -/
def calculate_match_percentage (user_skills : List Skill) (target_role : String) :
    Except String Nat :=
  match user_skill_names user_skills with
  | Except.error e => Except.error e
  | Except.ok names =>
    Except.ok (clampBand (rawPercentage (relevantKeywords target_role) names))

/-- The spec words the score as a substring relation: `needle` appears as a
substring of `hay`. Stated by decomposition, independently of `pyIn`. -/
def specIsSubstringOf (needle hay : String) : Prop :=
  ∃ pre post, hay.toList = pre ++ needle.toList ++ post

/-- Rounding to nearest (half away from zero) of `a / b`, the reading of the
`round` in the spec sentence for the score. -/
def ratRound (a b : Nat) : Nat := (2 * a + b) / (2 * b)

/-- The list comprehension on line 47 of the source: the raw skill names for
the prompt, left to right, propagating the first `KeyError`. -/
def getNames : List Skill → Except String (List String)
  | [] => Except.ok []
  | s :: rest =>
    match s.getName with
    | Except.error e => Except.error e
    | Except.ok n =>
      match getNames rest with
      | Except.error e => Except.error e
      | Except.ok ns => Except.ok (n :: ns)

/-- The f-string template of lines 46-60 with its three interpolations. -/
def promptTemplate (skillsJoined interest target_role : String) : String :=
  "\n    User Current Skills: " ++ skillsJoined ++
  "\n    User Interest: " ++ interest ++
  "\n    Target Job Role: " ++ target_role ++
  "\n\n    Suggest a complete step-by-step learning path to become a highly qualified " ++
  target_role ++
  ".\n    Include:\n    * Missing skills to learn\n    * Technologies to learn" ++
  "\n    * Tools and frameworks\n    * Beginner to advanced roadmap" ++
  "\n    * Correct order of learning" ++
  "\n\n    Return the result as a structured list with clear section headers.\n    "

/-- Building the prompt (lines 46-60): joins the skill names with a comma;
the subscript access inside the comprehension can raise, and this statement
sits outside the `try` block. -/
def buildPrompt (skills : List Skill) (interest target_role : String) :
    Except String String :=
  match getNames skills with
  | Except.error e => Except.error e
  | Except.ok names =>
    Except.ok (promptTemplate (String.intercalate ", " names) interest target_role)

/-- The JSON value returned by `query_huggingface` via `response.json()`:
either a JSON array whose elements each have an optional `generated_text`
field, or any other JSON value carried by its Python `str()` form. -/
inductive HFValue where
  | jlist (items : List (Option String))
  | other (stringForm : String)
deriving DecidableEq

/-- Response shaping, lines 66-69 of the source: first element of a
non-empty list gives `.get` of `generated_text` with default `""`;
anything else is stringified (`str([]) = "[]"`). -/
def hfText : HFValue → String
  | HFValue.jlist (first :: _) => first.getD ""
  | HFValue.jlist [] => "[]"
  | HFValue.other s => s

/-- The JSON request body: each of the three fields may be absent, which
`data.get` replaces with `[]`, `""`, `""` respectively. -/
structure RequestData where
  skills : Option (List Skill)
  interest : Option String
  target_role : Option String
deriving DecidableEq

/-- The four response shapes a request can end in: the 400 validation
response, the 200 success body, the 500 `except`-branch body, and an
exception escaping the handler (raised outside the `try` block). -/
inductive HandlerResult where
  | badRequest (error : String)
  | success (learning_path : String) (match_percentage : Nat) (target_role : String)
  | serverError (error : String)
  | uncaught (error : String)
deriving DecidableEq

/-- `generate_learning_path` (flask_app.py lines 34-83). The upstream call
is a parameter from prompt to outcome; the returned Bool records whether the
upstream call was performed. Validation uses Python falsiness: an empty list
or empty string is falsy. Everything inside the `try` that raises becomes
the 500 body with `str(e)`; the prompt construction sits before the `try`,
so its `KeyError` escapes. -/
def generate_learning_path (data : RequestData)
    (upstream : String → Except String HFValue) : HandlerResult × Bool :=
  if data.skills.getD [] = [] ∨ data.interest.getD "" = "" ∨
      data.target_role.getD "" = "" then
    (HandlerResult.badRequest "Missing required data", false)
  else
    match buildPrompt (data.skills.getD []) (data.interest.getD "")
        (data.target_role.getD "") with
    | Except.error e => (HandlerResult.uncaught e, false)
    | Except.ok prompt =>
      match upstream prompt with
      | Except.error e => (HandlerResult.serverError e, true)
      | Except.ok hf =>
        match calculate_match_percentage (data.skills.getD [])
            (data.target_role.getD "") with
        | Except.error e => (HandlerResult.serverError e, true)
        | Except.ok mp =>
          (HandlerResult.success (hfText hf) mp (data.target_role.getD ""), true)

/-! Helper lemmas. -/

theorem listStartsWith_iff (n : List Char) :
    ∀ h : List Char, listStartsWith n h = true ↔ ∃ t, h = n ++ t := by
  induction n with
  | nil => intro h; simp [listStartsWith]
  | cons a as ih =>
    intro h
    cases h with
    | nil => simp [listStartsWith]
    | cons b bs =>
      simp only [listStartsWith, Bool.and_eq_true, beq_iff_eq, ih,
        List.cons_append, List.cons.injEq]
      constructor
      · rintro ⟨rfl, t, rfl⟩
        exact ⟨t, rfl, rfl⟩
      · rintro ⟨t, rfl, rfl⟩
        exact ⟨rfl, t, rfl⟩

theorem subOccurs_iff (n : List Char) :
    ∀ h : List Char, subOccurs n h = true ↔ ∃ pre post, h = pre ++ n ++ post := by
  intro h
  induction h with
  | nil =>
    show listStartsWith n [] = true ↔ _
    rw [listStartsWith_iff]
    constructor
    · rintro ⟨t, ht⟩
      exact ⟨[], t, ht⟩
    · rintro ⟨p, q, hp⟩
      rcases List.append_eq_nil.mp hp.symm with ⟨h1, h2⟩
      rcases List.append_eq_nil.mp h1 with ⟨hp1, hn⟩
      refine ⟨q, ?_⟩
      rw [hn]
      exact h2.symm
  | cons b t ih =>
    simp only [subOccurs, Bool.or_eq_true, listStartsWith_iff, ih]
    constructor
    · rintro (⟨s, hs⟩ | ⟨p, q, rfl⟩)
      · exact ⟨[], s, by simpa using hs⟩
      · exact ⟨b :: p, q, by simp⟩
    · rintro ⟨p, q, hp⟩
      cases p with
      | nil => exact Or.inl ⟨q, by simpa using hp⟩
      | cons c pr =>
        simp only [List.cons_append] at hp
        injection hp with hb ht
        exact Or.inr ⟨pr, q, by simpa [List.cons_append] using ht⟩

theorem pyIn_iff (needle hay : String) :
    pyIn needle hay = true ↔ specIsSubstringOf needle hay := by
  unfold pyIn specIsSubstringOf
  exact subOccurs_iff _ _

theorem getNames_err (s : Skill) (hn : s.name = none) :
    ∀ l : List Skill, s ∈ l → ∃ e, getNames l = Except.error e := by
  intro l
  induction l with
  | nil => intro hs; cases hs
  | cons a rest ih =>
    intro hs
    rcases List.mem_cons.mp hs with rfl | hmem
    · refine ⟨"KeyError: \x27name\x27", ?_⟩
      have hg : s.getName = Except.error "KeyError: \x27name\x27" := by
        simp [Skill.getName, hn]
      simp [getNames, hg]
    · rcases ih hmem with ⟨e, he⟩
      cases hga : a.getName with
      | error e2 => exact ⟨e2, by simp [getNames, hga]⟩
      | ok nn => exact ⟨e, by simp [getNames, hga, he]⟩

theorem clampBand_bounds (p : Nat) : 10 ≤ clampBand p ∧ clampBand p ≤ 95 := by
  unfold clampBand
  exact ⟨le_min (le_max_right _ _) (by norm_num), min_le_right _ _⟩

theorem success_match_eq (d : RequestData) (u : String → Except String HFValue)
    (t r : String) (m : Nat) (b : Bool)
    (h : generate_learning_path d u = (HandlerResult.success t m r, b)) :
    calculate_match_percentage (d.skills.getD []) (d.target_role.getD "") =
      Except.ok m := by
  unfold generate_learning_path at h
  split at h
  · simp at h
  · split at h
    · simp at h
    · split at h
      · simp at h
      · split at h
        · simp at h
        · rename_i mp heq
          simp only [Prod.mk.injEq, HandlerResult.success.injEq] at h
          rw [heq, h.1.2.1]

theorem generate_learning_path_valid (data : RequestData)
    (u : String → Except String HFValue) (p : String)
    (hv : ¬(data.skills.getD [] = [] ∨ data.interest.getD "" = "" ∨
      data.target_role.getD "" = ""))
    (hp : buildPrompt (data.skills.getD []) (data.interest.getD "")
      (data.target_role.getD "") = Except.ok p) :
    generate_learning_path data u =
      match u p with
      | Except.error e => (HandlerResult.serverError e, true)
      | Except.ok hf =>
        match calculate_match_percentage (data.skills.getD [])
            (data.target_role.getD "") with
        | Except.error e => (HandlerResult.serverError e, true)
        | Except.ok mp =>
          (HandlerResult.success (hfText hf) mp (data.target_role.getD ""), true) := by
  unfold generate_learning_path
  rw [if_neg hv, hp]

/-! Claim theorems. -/

/-- C2: for every skills list and every target role (recognized by the
keyword table or not), the match percentage returned by the Match Estimator
lies within [10, 95] inclusive. -/
theorem match_percentage_in_band (user_skills : List Skill) (target_role : String)
    (p : Nat) (h : calculate_match_percentage user_skills target_role = Except.ok p) :
    10 ≤ p ∧ p ≤ 95 := by
  unfold calculate_match_percentage at h
  split at h
  · simp at h
  · simp only [Except.ok.injEq] at h
    rw [← h]
    exact clampBand_bounds _

/-- C2 witness: the band bounds hold at a concrete call of the estimator. -/
theorem match_percentage_in_band_witness : 10 ≤ 50 ∧ 50 ≤ 95 :=
  match_percentage_in_band [⟨some "Git"⟩] "Data Scientist" 50 rfl

/-- C3: for every request in which skills is empty or absent, or interest is
empty or absent, or target role is empty or absent, the handler returns the
MissingInput failure (400 with an error message) and no upstream call is
performed. -/
theorem missing_input_returns_400 (data : RequestData)
    (upstream : String → Except String HFValue)
    (h : data.skills.getD [] = [] ∨ data.interest.getD "" = "" ∨
      data.target_role.getD "" = "") :
    generate_learning_path data upstream =
      (HandlerResult.badRequest "Missing required data", false) := by
  unfold generate_learning_path
  rw [if_pos h]

/-- C3 witness: a request with the skills field absent is rejected with the
400 body and the upstream call flag stays false. -/
theorem missing_input_returns_400_witness :
    generate_learning_path ⟨none, some "ai", some "Backend Developer"⟩
        (fun _ => Except.ok (HFValue.other "x")) =
      (HandlerResult.badRequest "Missing required data", false) :=
  missing_input_returns_400 _ _ (Or.inl rfl)

/-- C7: for the skills list [Figma, User Research] and target role
UI/UX Designer, the Match Estimator returns exactly 50, with the two
keywords figma and user research matched out of the four in the table. -/
theorem uiux_figma_user_research_fifty :
    matchedKeywords (relevantKeywords "UI/UX Designer")
        ["figma", "user research"] = ["figma", "user research"] ∧
    calculate_match_percentage [⟨some "Figma"⟩, ⟨some "User Research"⟩]
        "UI/UX Designer" = Except.ok 50 :=
  ⟨rfl, rfl⟩

/-- C8: for every names list, an empty keyword list gives a raw score of 0
before clamping, and the clamp then yields 10. -/
theorem empty_keywords_raw_zero (names : List String) :
    rawPercentage [] names = 0 ∧ clampBand (rawPercentage [] names) = 10 :=
  ⟨rfl, rfl⟩

/-- C1 counterexample: with one skill Python against Backend Developer,
exactly 1 of the 6 keywords matches; the code truncates 100/6 to 16, while
rounding as the claim states gives 17. -/
theorem round_score_counterexample :
    calculate_match_percentage [⟨some "Python"⟩] "Backend Developer" =
      Except.ok 16 ∧
    clampBand (ratRound
      ((matchedKeywords (relevantKeywords "Backend Developer") ["python"]).length
        * 100)
      (relevantKeywords "Backend Developer").length) = 17 ∧
    (16 : Nat) ≠ 17 :=
  ⟨rfl, rfl, by decide⟩

/-- C1 amended: for every skills list whose names all resolve and every role
with a non-empty keyword list, the score equals the integer truncation
(floor) of matches / total_keywords * 100, then clamped to [10, 95]. -/
theorem match_score_floor_then_clamp (user_skills : List Skill) (role : String)
    (names : List String) (h : user_skill_names user_skills = Except.ok names)
    (hne : relevantKeywords role ≠ []) :
    calculate_match_percentage user_skills role =
      Except.ok (clampBand
        ((matchedKeywords (relevantKeywords role) names).length * 100 /
          (relevantKeywords role).length)) := by
  unfold calculate_match_percentage
  rw [h]
  cases hk : relevantKeywords role with
  | nil => exact absurd hk hne
  | cons a l => simp [rawPercentage, hk]

/-- C1 amended witness: the floor-then-clamp formula evaluated at the
counterexample input gives back the code result. -/
theorem match_score_floor_then_clamp_witness :
    calculate_match_percentage [⟨some "Python"⟩] "Backend Developer" =
      Except.ok (clampBand
        ((matchedKeywords (relevantKeywords "Backend Developer")
          ["python"]).length * 100 /
          (relevantKeywords "Backend Developer").length)) :=
  match_score_floor_then_clamp _ _ _ rfl (by decide)

/-- C5: a keyword is matched by the Match Estimator if and only if it is a
table keyword for the role and appears as a substring of at least one
lower-cased user skill name. -/
theorem matched_iff_substring_of_lowered_name (user_skills : List Skill)
    (role : String) (names : List String) (k : String)
    (h : user_skill_names user_skills = Except.ok names) :
    k ∈ matchedKeywords (relevantKeywords role) names ↔
      k ∈ relevantKeywords role ∧ ∃ us ∈ names, specIsSubstringOf k us := by
  unfold matchedKeywords
  rw [List.mem_filter]
  simp only [List.any_eq_true, pyIn_iff]

/-- C5 witness: the characterization instantiated at a concrete request. -/
theorem matched_iff_substring_of_lowered_name_witness :
    "git" ∈ matchedKeywords (relevantKeywords "Data Scientist") ["git"] ↔
      "git" ∈ relevantKeywords "Data Scientist" ∧
        ∃ us ∈ ["git"], specIsSubstringOf "git" us :=
  matched_iff_substring_of_lowered_name [⟨some "Git"⟩] "Data Scientist"
    ["git"] "git" rfl

/-- C6: every role outside the four table entries falls back to the keyword
list [git, api]; and with lower-cased skill names containing git but not
api, the returned match percentage is 50. -/
theorem unrecognized_role_fallback_fifty (role : String)
    (h1 : role ≠ "Backend Developer") (h2 : role ≠ "Frontend Developer")
    (h3 : role ≠ "AI Engineer") (h4 : role ≠ "UI/UX Designer") :
    relevantKeywords role = ["git", "api"] ∧
    ∀ (user_skills : List Skill) (names : List String),
      user_skill_names user_skills = Except.ok names →
      names.any (fun us => pyIn "git" us) = true →
      names.any (fun us => pyIn "api" us) = false →
      calculate_match_percentage user_skills role = Except.ok 50 := by
  have hk : relevantKeywords role = ["git", "api"] := by
    unfold relevantKeywords
    rw [if_neg h1, if_neg h2, if_neg h3, if_neg h4]
  refine ⟨hk, ?_⟩
  intro user_skills names hn hg ha
  unfold calculate_match_percentage
  rw [hn, hk]
  simp [rawPercentage, matchedKeywords, List.filter, hg, ha, clampBand]

/-- C6 witness: Data Scientist is unrecognized, so with the single skill Git
the estimator returns 50. -/
theorem unrecognized_role_fallback_fifty_witness :
    relevantKeywords "Data Scientist" = ["git", "api"] ∧
    calculate_match_percentage [⟨some "Git"⟩] "Data Scientist" =
      Except.ok 50 := by
  have h := unrecognized_role_fallback_fifty "Data Scientist"
    (by decide) (by decide) (by decide) (by decide)
  exact ⟨h.1, h.2 [⟨some "Git"⟩] ["git"] rfl rfl rfl⟩

/-- C4 counterexample: an upstream exception whose description is the empty
string still reaches the 500 branch, but the error string carried is empty,
not non-empty as the claim states. -/
theorem upstream_error_string_can_be_empty :
    generate_learning_path ⟨some [⟨some "Python"⟩], some "ai", some "Backend Developer"⟩
        (fun _ => Except.error "") = (HandlerResult.serverError "", true) ∧
    ("" : String).length = 0 :=
  ⟨rfl, rfl⟩

/-- C4 amended: for every exception raised during the upstream call, the
handler returns the 500 shape with success false, carrying exactly the
exception description, which may be empty. -/
theorem upstream_error_gives_500 (data : RequestData)
    (upstream : String → Except String HFValue) (p e : String)
    (hv : ¬(data.skills.getD [] = [] ∨ data.interest.getD "" = "" ∨
      data.target_role.getD "" = ""))
    (hp : buildPrompt (data.skills.getD []) (data.interest.getD "")
      (data.target_role.getD "") = Except.ok p)
    (hu : upstream p = Except.error e) :
    generate_learning_path data upstream = (HandlerResult.serverError e, true) := by
  rw [generate_learning_path_valid data upstream p hv hp, hu]

/-- C4 amended witness: a connection failure is surfaced verbatim in the 500
body. -/
theorem upstream_error_gives_500_witness :
    generate_learning_path ⟨some [⟨some "Python"⟩], some "ml", some "AI Engineer"⟩
        (fun _ => Except.error "Connection refused") =
      (HandlerResult.serverError "Connection refused", true) :=
  upstream_error_gives_500 _ _ (promptTemplate "Python" "ml" "AI Engineer")
    "Connection refused" (by decide) rfl rfl

/-- C9: the match percentage in a success response depends only on the
skills list and the target role; the interest string and the upstream reply
have no influence. -/
theorem match_percentage_deterministic
    (d1 d2 : RequestData) (u1 u2 : String → Except String HFValue)
    (t1 t2 r1 r2 : String) (m1 m2 : Nat) (b1 b2 : Bool)
    (hs : d1.skills = d2.skills) (hr : d1.target_role = d2.target_role)
    (h1 : generate_learning_path d1 u1 = (HandlerResult.success t1 m1 r1, b1))
    (h2 : generate_learning_path d2 u2 = (HandlerResult.success t2 m2 r2, b2)) :
    m1 = m2 := by
  have e1 := success_match_eq d1 u1 t1 r1 m1 b1 h1
  have e2 := success_match_eq d2 u2 t2 r2 m2 b2 h2
  rw [hs, hr] at e1
  exact Except.ok.inj (e1.symm.trans e2)

/-- C9 witness: two calls with the same skills and role but different
interests and different upstream replies return the same percentage. -/
theorem match_percentage_deterministic_witness : (50 : Nat) = 50 :=
  match_percentage_deterministic
    ⟨some [⟨some "Git"⟩], some "web", some "Data Scientist"⟩
    ⟨some [⟨some "Git"⟩], some "cloud", some "Data Scientist"⟩
    (fun _ => Except.ok (HFValue.other "A"))
    (fun _ => Except.ok (HFValue.jlist [some "B"]))
    "A" "B" "Data Scientist" "Data Scientist" 50 50 true true
    rfl rfl rfl rfl

/-- C10: a valid request in which some skill object lacks a name field makes
the prompt construction raise before any upstream call, so the handler ends
in the uncaught shape, which is neither the 400 nor the 500 body. -/
theorem missing_name_uncaught (data : RequestData)
    (upstream : String → Except String HFValue) (s : Skill)
    (h1 : data.skills.getD [] ≠ []) (h2 : data.interest.getD "" ≠ "")
    (h3 : data.target_role.getD "" ≠ "")
    (hs : s ∈ data.skills.getD []) (hn : s.name = none) :
    ∃ e, generate_learning_path data upstream = (HandlerResult.uncaught e, false) ∧
      (∀ msg, HandlerResult.uncaught e ≠ HandlerResult.badRequest msg) ∧
      (∀ msg, HandlerResult.uncaught e ≠ HandlerResult.serverError msg) := by
  obtain ⟨e, he⟩ := getNames_err s hn (data.skills.getD []) hs
  have hv : ¬(data.skills.getD [] = [] ∨ data.interest.getD "" = "" ∨
      data.target_role.getD "" = "") := by
    push_neg
    exact ⟨h1, h2, h3⟩
  refine ⟨e, ?_, fun msg => by simp, fun msg => by simp⟩
  unfold generate_learning_path
  rw [if_neg hv]
  unfold buildPrompt
  rw [he]

/-- C10 witness: a request whose single skill object has no name field ends
in the uncaught shape with the upstream flag false. -/
theorem missing_name_uncaught_witness :
    ∃ e, generate_learning_path ⟨some [⟨none⟩], some "ai", some "Backend Developer"⟩
        (fun _ => Except.ok (HFValue.other "x")) =
          (HandlerResult.uncaught e, false) ∧
      (∀ msg, HandlerResult.uncaught e ≠ HandlerResult.badRequest msg) ∧
      (∀ msg, HandlerResult.uncaught e ≠ HandlerResult.serverError msg) :=
  missing_name_uncaught _ _ ⟨none⟩ (by decide) (by decide) (by decide)
    (by decide) rfl
